import Mathlib

set_option maxRecDepth 100000

/-!
Shallow embedding of `gif_uploader.py` (BLE LED-matrix GIF uploader).

The Python source works on hexadecimal strings in which two hex characters
represent one byte; every slice index in the source is byte-aligned (all
field widths are even numbers of hex characters), so we embed the protocol
over `List Nat`, one element per byte.  A hex-string of length `2*n`
corresponds to a list of `n` byte values; `len(hex_string) - 2` in the
source therefore excludes exactly ONE byte.

Hex formatting caveats carried as hypotheses on the theorems: the Python
length field `hex(len(payload)/2 + 41)[2:]` is a single byte only when its
value lies in 16..255 (true for the 196-byte chunks the program produces),
`f"{index:04x}"` is two bytes only when `index < 65536`, and
`f"{animation_length:02X}"` is one byte only when the count is `< 256`.
-/

/-- `checksum_mod256` (gif_uploader.py line 51): sum of all bytes, mod 256. -/
def checksum_mod256 (bs : List Nat) : Nat :=
  bs.sum % 256

/-- `calculate_last_byte` (gif_uploader.py line 55): the source iterates over
`range(0, len(hex_string) - 2, 2)`, i.e. over every byte of the input except
the input's final byte (two hex characters), sums them without any modulo,
and integer-divides by 256.  The Python `f"{last_byte:02X}"` does not
truncate: it simply prints the quotient, so the embedded function returns
the quotient itself. -/
def calculate_last_byte (bs : List Nat) : Nat :=
  bs.dropLast.sum / 256

/-- First reset frame written by `reset_screen` (gif_uploader.py line 69):
hex `aa55ffff0a000900c102080200ffdc04`. -/
def resetFrame1 : List Nat :=
  [0xaa, 0x55, 0xff, 0xff, 0x0a, 0x00, 0x09, 0x00,
   0xc1, 0x02, 0x08, 0x02, 0x00, 0xff, 0xdc, 0x04]

/-- Second reset frame written by `reset_screen` (gif_uploader.py line 72):
hex `aa55ffff0a000900c10208020000dd03`. -/
def resetFrame2 : List Nat :=
  [0xaa, 0x55, 0xff, 0xff, 0x0a, 0x00, 0x09, 0x00,
   0xc1, 0x02, 0x08, 0x02, 0x00, 0x00, 0xdd, 0x03]

/-- Finalize frame written twice at the end of `main`
(gif_uploader.py lines 224-225): hex `aa55ffff0b000f00c10236030100001404`. -/
def finalizeFrame : List Nat :=
  [0xaa, 0x55, 0xff, 0xff, 0x0b, 0x00, 0x0f, 0x00,
   0xc1, 0x02, 0x36, 0x03, 0x01, 0x00, 0x00, 0x14, 0x04]

/-- The packet index field (gif_uploader.py lines 86 and 96):
`f"{index:04x}00"` — a 2-byte big-endian rendering of the index followed by
one zero byte.  Faithful for `index < 65536`. -/
def indexField (index : Nat) : List Nat :=
  [index / 256, index % 256, 0]

/-- The fixed header segment of `generate_header` (gif_uploader.py line 89):
hex `c1020901010c01000d01000e0100140301090a11040001000a1207`, 27 bytes. -/
def headerConst : List Nat :=
  [0xc1, 0x02, 0x09, 0x01, 0x01, 0x0c, 0x01, 0x00, 0x0d,
   0x01, 0x00, 0x0e, 0x01, 0x00, 0x14, 0x03, 0x01, 0x09,
   0x0a, 0x11, 0x04, 0x00, 0x01, 0x00, 0x0a, 0x12, 0x07]

/-- `generate_header` (gif_uploader.py lines 75-105).  The length-field byte
is `len(payload_in_bytes) + 41`; the fixed tail segments are
hex `c4000013` and hex `81c4`. -/
def generate_header (payload : List Nat) (index animation_length : Nat) : List Nat :=
  [0xaa, 0x55, 0xff, 0xff]
    ++ [payload.length + 41]
    ++ indexField index
    ++ headerConst
    ++ [animation_length]
    ++ indexField index
    ++ [0xc4, 0x00, 0x00, 0x13]
    ++ [0x81, 0xc4]

/-- `generate_packet` (gif_uploader.py lines 109-122): header, then payload,
then the mod-256 checksum byte of header‖payload, then the
`calculate_last_byte` of everything emitted so far (header‖payload‖checksum).
The source performs no validation of `index` or `animation_length`. -/
def generate_packet (payload : List Nat) (index animation_length : Nat) : List Nat :=
  let header := generate_header payload index animation_length
  let full_value := header ++ payload
  let checksum := checksum_mod256 full_value
  let full_value2 := full_value ++ [checksum]
  let last_byte := calculate_last_byte full_value2
  full_value2 ++ [last_byte]

/-- The chunking comprehension of `file_to_hex_chunks`
(gif_uploader.py lines 138-143): the source iterates
`for i in range(0, len(hex_string), 392)` — `(L + 195) / 196` iterations in
byte units — slices 196 bytes starting at byte `196*i`, and right-pads the
slice with zero bytes (`ljust(392, '0')`) to 196 bytes. -/
def file_to_hex_chunks (bs : List Nat) : List (List Nat) :=
  (List.range ((bs.length + 195) / 196)).map fun i =>
    let c := (bs.drop (196 * i)).take 196
    c ++ List.replicate (196 - c.length) 0

/-- The 6-byte magic signature of `GIF87a` in ASCII. -/
def gif87aSig : List Nat := [0x47, 0x49, 0x46, 0x38, 0x37, 0x61]

/-- The 6-byte magic signature of `GIF89a` in ASCII. -/
def gif89aSig : List Nat := [0x47, 0x49, 0x46, 0x38, 0x39, 0x61]

/-- The signature test of `file_to_hex_chunks` (gif_uploader.py line 134):
the data must start with `GIF87a` or `GIF89a`. -/
def isGifSignature (bs : List Nat) : Bool :=
  bs.take 6 == gif87aSig || bs.take 6 == gif89aSig

/-- Failure modes of `file_to_hex_chunks` (it calls `sys.exit(1)` after
printing a message; we embed the two data-dependent exits as errors). -/
inductive ChunkError
  | invalidFormat
  | payloadTooLarge
  deriving DecidableEq, Repr

/-- `file_to_hex_chunks` with its validation (gif_uploader.py lines 134-150):
reject a bad signature, chunk, then reject more than 255 chunks. -/
def file_to_hex_chunks_checked (bs : List Nat) : Except ChunkError (List (List Nat)) :=
  if isGifSignature bs = false then .error .invalidFormat
  else
    let cs := file_to_hex_chunks bs
    if cs.length > 255 then .error .payloadTooLarge
    else .ok cs

/-- Outcome of the per-packet send loop of `main`. -/
inductive SessionOutcome
  | completed
  | ackTimeout
  deriving DecidableEq, Repr

/-- The per-packet loop of `main` (gif_uploader.py lines 197-219): for each
chunk, generate the packet for the current index, write it, then wait for
the notification event; when no acknowledgment arrives the program prints
the error and exits (`sys.exit(1)`) — no retry, no further packet.  `ack i`
abstracts whether a notification arrives within the timeout after packet
`i` is written; the returned list is the sequence of packets written. -/
def sendLoop (N : Nat) (ack : Nat → Bool) : Nat → List (List Nat) → List (List Nat) × SessionOutcome
  | _, [] => ([], .completed)
  | i, c :: cs =>
    let p := generate_packet c i N
    if ack i then
      let r := sendLoop N ack (i + 1) cs
      (p :: r.1, r.2)
    else
      ([p], .ackTimeout)

/-- The transfer session of `main` (gif_uploader.py lines 188-225): write the
two reset frames, run the packet loop with `N = number of chunks`, and on
success write the finalize frame twice.  On an acknowledgment timeout the
process exits before any finalize write. -/
def runSession (chunks : List (List Nat)) (ack : Nat → Bool) : List (List Nat) × SessionOutcome :=
  let r := sendLoop chunks.length ack 0 chunks
  match r.2 with
  | .completed => (resetFrame1 :: resetFrame2 :: (r.1 ++ [finalizeFrame, finalizeFrame]), .completed)
  | .ackTimeout => (resetFrame1 :: resetFrame2 :: r.1, .ackTimeout)

/-- Overall outcome of one run of `main`. -/
inductive UploadOutcome
  | invalidFormat
  | payloadTooLarge
  | ackTimeout
  | completed
  deriving DecidableEq, Repr

/-- `main` end to end (gif_uploader.py lines 159-233): `file_to_hex_chunks`
runs (and may exit) before the BLE connection is opened, so a rejected
payload produces no writes at all. -/
def runUpload (bs : List Nat) (ack : Nat → Bool) : List (List Nat) × UploadOutcome :=
  match file_to_hex_chunks_checked bs with
  | .error .invalidFormat => ([], .invalidFormat)
  | .error .payloadTooLarge => ([], .payloadTooLarge)
  | .ok cs =>
    let r := runSession cs ack
    match r.2 with
    | .completed => (r.1, .completed)
    | .ackTimeout => (r.1, .ackTimeout)

/-- The packets `main` generates for a list of chunks starting at a given
index, with total count `N`. -/
def packetsFrom (N : Nat) : Nat → List (List Nat) → List (List Nat)
  | _, [] => []
  | i, c :: cs => generate_packet c i N :: packetsFrom N (i + 1) cs

/-- A full all-zero chunk (196 zero bytes), used for concrete instances. -/
def zeroChunk : List Nat := List.replicate 196 0

/-- A chunk whose first byte is 29 and whose remaining 195 bytes are zero;
chosen so that the mod-256 checksum of header‖payload is at least 128. -/
def c29Chunk : List Nat := 29 :: List.replicate 195 0

/-- A valid GIF payload of exactly 255×196 = 49980 bytes. -/
def gifPayloadMax : List Nat := gif89aSig ++ List.replicate 49974 0

/-- A valid GIF payload of exactly 255×196+1 = 49981 bytes. -/
def gifPayloadOver : List Nat := gif89aSig ++ List.replicate 49975 0

theorem calculate_last_byte_concat (l : List Nat) (a : Nat) :
    calculate_last_byte (l ++ [a]) = l.sum / 256 := by
  simp [calculate_last_byte]

theorem generate_header_length (p : List Nat) (i N : Nat) :
    (generate_header p i N).length = 45 := by
  simp [generate_header, indexField, headerConst]

theorem generate_packet_eq (p : List Nat) (i N : Nat) :
    generate_packet p i N
      = generate_header p i N ++ p
        ++ [checksum_mod256 (generate_header p i N ++ p)]
        ++ [calculate_last_byte (generate_header p i N ++ p
              ++ [checksum_mod256 (generate_header p i N ++ p)])] := rfl

theorem generate_packet_length (p : List Nat) (i N : Nat) :
    (generate_packet p i N).length = p.length + 47 := by
  rw [generate_packet_eq]
  simp [generate_header_length]
  omega

theorem generate_header_getElem4 (p : List Nat) (i N : Nat) :
    (generate_header p i N)[4]? = some (p.length + 41) := rfl

/-- C1 counterexample: for the chunk `29, 0, …, 0` at index 0 with count 1,
the packet's last trailer byte is 7, but the high byte of the sum of
header, payload, and the checksum byte taken together is 8 — so the last
trailer byte is not computed over the checksum byte. -/
theorem c1_counterexample :
    (generate_packet c29Chunk 0 1).getLast? = some 7
    ∧ (generate_header c29Chunk 0 1 ++ c29Chunk
        ++ [checksum_mod256 (generate_header c29Chunk 0 1 ++ c29Chunk)]).sum / 256 = 8 := by
  constructor
  · rfl
  · rfl

/-- C1 (amended): the input string handed to the final trailing-byte
computation does include the checksum byte from step 9, but the computation
drops its input's final byte, so the last trailer byte equals the high byte
of the integer sum of the header and payload bytes only — the checksum byte
is excluded from the sum. -/
theorem c1_last_byte_excludes_checksum (p : List Nat) (i N : Nat)
    (hp : p.length = 196) (hi : i < 65536) (hN : N < 256) :
    generate_packet p i N
      = generate_header p i N ++ p
        ++ [checksum_mod256 (generate_header p i N ++ p)]
        ++ [calculate_last_byte (generate_header p i N ++ p
              ++ [checksum_mod256 (generate_header p i N ++ p)])]
    ∧ calculate_last_byte (generate_header p i N ++ p
        ++ [checksum_mod256 (generate_header p i N ++ p)])
      = (generate_header p i N ++ p).sum / 256 :=
  ⟨generate_packet_eq p i N, calculate_last_byte_concat _ _⟩

/-- C1 witness: the amended statement instantiated at the all-zero chunk,
index 0, count 1. -/
theorem c1_last_byte_excludes_checksum_witness :
    generate_packet zeroChunk 0 1
      = generate_header zeroChunk 0 1 ++ zeroChunk
        ++ [checksum_mod256 (generate_header zeroChunk 0 1 ++ zeroChunk)]
        ++ [calculate_last_byte (generate_header zeroChunk 0 1 ++ zeroChunk
              ++ [checksum_mod256 (generate_header zeroChunk 0 1 ++ zeroChunk)])]
    ∧ calculate_last_byte (generate_header zeroChunk 0 1 ++ zeroChunk
        ++ [checksum_mod256 (generate_header zeroChunk 0 1 ++ zeroChunk)])
      = (generate_header zeroChunk 0 1 ++ zeroChunk).sum / 256 :=
  c1_last_byte_excludes_checksum zeroChunk 0 1 rfl (by norm_num) (by norm_num)

/-- C2 counterexample: on the four-byte input `255,255,255,255` the code
returns 2 (it excludes only the final byte: (255+255+255)/256 = 2), while
the claim's value — excluding the last TWO bytes — would be
(255+255)/256 = 1; and on 260 bytes of 255 the result is 257, which does
not fit in one byte, so the output is not truncated to [0,255]. -/
theorem c2_counterexample :
    calculate_last_byte [255, 255, 255, 255] = 2
    ∧ (255 + 255) / 256 = 1
    ∧ 255 < calculate_last_byte (List.replicate 260 255) := by
  refine ⟨rfl, rfl, ?_⟩
  decide

/-- C2 (amended): `calculate_last_byte` sums every byte of its input
excluding only the input's own LAST byte (the last two hex characters),
integer-divides by 256, and the result fits in a single byte only when
that sum is below 65536 — the code does not truncate. -/
theorem c2_trailing_byte_drops_one (bs : List Nat) (a : Nat) :
    calculate_last_byte (bs ++ [a]) = bs.sum / 256
    ∧ (bs.sum < 65536 → calculate_last_byte (bs ++ [a]) ≤ 255) := by
  refine ⟨calculate_last_byte_concat bs a, fun h => ?_⟩
  rw [calculate_last_byte_concat]
  omega

/-- C2 witness: the amended statement at `[255, 255] ++ [9]`, with the
sum-bound hypothesis discharged. -/
theorem c2_trailing_byte_drops_one_witness :
    calculate_last_byte ([255, 255] ++ [9]) = [255, 255].sum / 256
    ∧ calculate_last_byte ([255, 255] ++ [9]) ≤ 255 :=
  ⟨(c2_trailing_byte_drops_one [255, 255] 9).1,
   (c2_trailing_byte_drops_one [255, 255] 9).2 (by norm_num)⟩

/-- C4 counterexample: `generate_packet` contains no index validation at
all; encoding with index = N succeeds and returns a full 243-byte packet
for both N = 1 and N = 255, instead of failing with IndexOutOfRange. -/
theorem c4_counterexample :
    (generate_packet zeroChunk 1 1).length = 243
    ∧ (generate_packet zeroChunk 255 255).length = 243 := by
  constructor
  · rfl
  · rfl

/-- C4 (amended): the encoder is total and never fails: for every 196-byte
chunk, every index below 65536 and every count below 256 — including
index ≥ N — `generate_packet` returns a complete 243-byte packet; no
IndexOutOfRange error path exists in the code. -/
theorem c4_encoder_total (p : List Nat) (i N : Nat)
    (hp : p.length = 196) (hi : i < 65536) (hN : N < 256) :
    (generate_packet p i N).length = 243 := by
  rw [generate_packet_length, hp]

/-- C4 witness: the amended statement at index 7 with count 3 (an
out-of-range index, which still encodes successfully). -/
theorem c4_encoder_total_witness :
    (generate_packet zeroChunk 7 3).length = 243 :=
  c4_encoder_total zeroChunk 7 3 rfl (by norm_num) (by norm_num)

/-- C6 counterexample: the data frame for the all-zero chunk is 243 bytes
long, not 28 + 196 + 2 = 226 bytes, and the fixed constant header segment
of step 4 is 27 bytes long, not 28. -/
theorem c6_counterexample :
    (generate_packet zeroChunk 0 1).length = 243
    ∧ ¬ (generate_packet zeroChunk 0 1).length = 28 + 196 + 2
    ∧ headerConst.length = 27
    ∧ ¬ headerConst.length = 28 := by
  refine ⟨rfl, by decide, rfl, by decide⟩

/-- C6 (amended): every data frame is exactly 45 header bytes + the
196-byte chunk + the 2-byte trailer = 243 bytes; the header's length-field
byte (at offset 4) equals 40 + 196 + 1 = 237, counting the 40 header bytes
that follow it, the chunk bytes, and the first trailer byte; and the fixed
constant header segment of step 4 is 27 bytes long. -/
theorem c6_frame_sizes (p : List Nat) (i N : Nat)
    (hp : p.length = 196) (hi : i < 65536) (hN : N < 256) :
    (generate_packet p i N).length = 45 + 196 + 2
    ∧ (generate_header p i N)[4]? = some (40 + 196 + 1)
    ∧ (generate_packet p i N).length = 5 + (40 + 196 + 1) + 1
    ∧ headerConst.length = 27 := by
  refine ⟨?_, ?_, ?_, rfl⟩
  · rw [generate_packet_length, hp]
  · rw [generate_header_getElem4, hp]
  · rw [generate_packet_length, hp]

/-- C6 witness: the amended statement at the all-zero chunk, index 0,
count 1. -/
theorem c6_frame_sizes_witness :
    (generate_packet zeroChunk 0 1).length = 45 + 196 + 2
    ∧ (generate_header zeroChunk 0 1)[4]? = some (40 + 196 + 1)
    ∧ (generate_packet zeroChunk 0 1).length = 5 + (40 + 196 + 1) + 1
    ∧ headerConst.length = 27 :=
  c6_frame_sizes zeroChunk 0 1 rfl (by norm_num) (by norm_num)

/-- C7 counterexample: at packet index 1 the 3-byte index field emitted at
header offset 5 is `00 01 00` — most-significant byte first — whereas a
2-byte little-endian field followed by a zero pad would be `01 00 00`. -/
theorem c7_counterexample :
    ((generate_header zeroChunk 1 1).drop 5).take 3 = [0, 1, 0]
    ∧ [(0 : Nat), 1, 0] ≠ [1, 0, 0] := by
  refine ⟨rfl, by decide⟩

/-- C7 (amended): the header encodes the packet index as a 2-byte
BIG-endian field (most-significant byte first) followed by one zero
padding byte, and this 3-byte encoding appears twice — at header offsets 5
and 36 — with the two occurrences byte-identical. -/
theorem c7_index_field (p : List Nat) (i N : Nat)
    (hp : p.length = 196) (hi : i < 65536) (hN : N < 256) :
    ((generate_header p i N).drop 5).take 3 = [i / 256, i % 256, 0]
    ∧ ((generate_header p i N).drop 36).take 3 = [i / 256, i % 256, 0]
    ∧ ((generate_header p i N).drop 5).take 3
        = ((generate_header p i N).drop 36).take 3 := by
  exact ⟨rfl, rfl, rfl⟩

/-- C7 witness: the amended statement at the all-zero chunk, index 258,
count 2 (index 258 = `01 02 00` on the wire). -/
theorem c7_index_field_witness :
    ((generate_header zeroChunk 258 2).drop 5).take 3 = [258 / 256, 258 % 256, 0]
    ∧ ((generate_header zeroChunk 258 2).drop 36).take 3 = [258 / 256, 258 % 256, 0]
    ∧ ((generate_header zeroChunk 258 2).drop 5).take 3
        = ((generate_header zeroChunk 258 2).drop 36).take 3 :=
  c7_index_field zeroChunk 258 2 rfl (by norm_num) (by norm_num)

theorem file_to_hex_chunks_length (bs : List Nat) :
    (file_to_hex_chunks bs).length = (bs.length + 195) / 196 := by
  simp [file_to_hex_chunks]

theorem file_to_hex_chunks_chunk_length (bs : List Nat) :
    ∀ c ∈ file_to_hex_chunks bs, c.length = 196 := by
  intro c hc
  simp only [file_to_hex_chunks, List.mem_map, List.mem_range] at hc
  obtain ⟨i, _, rfl⟩ := hc
  simp only [List.length_append, List.length_take, List.length_replicate]
  omega

theorem chunk_slices_flatten (m : Nat) (bs : List Nat) :
    ((List.range m).map fun i =>
        (bs.drop (196 * i)).take 196
          ++ List.replicate (196 - ((bs.drop (196 * i)).take 196).length) 0).flatten
      = bs.take (196 * m)
        ++ List.replicate (196 * m - min (196 * m) bs.length) 0 := by
  induction m generalizing bs with
  | zero => simp
  | succ m ih =>
    rw [List.range_succ_eq_map, List.map_cons, List.map_map, List.flatten_cons]
    have hstep : (List.range m).map ((fun i =>
          (bs.drop (196 * i)).take 196
            ++ List.replicate (196 - ((bs.drop (196 * i)).take 196).length) 0) ∘ Nat.succ)
        = (List.range m).map fun i =>
            ((bs.drop 196).drop (196 * i)).take 196
              ++ List.replicate (196 - (((bs.drop 196).drop (196 * i)).take 196).length) 0 := by
      refine List.map_congr_left ?_
      intro i _
      simp only [Function.comp_apply, List.drop_drop]
      rw [show 196 * Nat.succ i = 196 + 196 * i by omega]
    rw [hstep, ih (bs.drop 196)]
    simp only [Nat.mul_zero, List.drop_zero, List.length_take, List.length_drop]
    rw [show 196 * (m + 1) = 196 + 196 * m by ring, List.take_add]
    rcases le_or_lt 196 bs.length with hL | hL
    · have h1 : 196 - min 196 bs.length = 0 := by omega
      have h2 : 196 * m - min (196 * m) (bs.length - 196)
          = 196 + 196 * m - min (196 + 196 * m) bs.length := by omega
      rw [h1, h2]
      simp [List.append_assoc]
    · have hnil : bs.drop 196 = [] := List.drop_eq_nil_of_le (by omega)
      have htake : bs.take 196 = bs := List.take_of_length_le (by omega)
      rw [hnil, htake]
      simp only [List.take_nil, List.append_nil]
      have h1 : min 196 bs.length = bs.length := by omega
      have h2 : 196 * m - min (196 * m) (bs.length - 196) = 196 * m := by omega
      have h3 : 196 + 196 * m - min (196 + 196 * m) bs.length
          = (196 - bs.length) + 196 * m := by omega
      rw [h1, h2, h3, List.replicate_add, List.append_assoc]
      simp

theorem file_to_hex_chunks_flatten_take (bs : List Nat) :
    (file_to_hex_chunks bs).flatten.take bs.length = bs := by
  have h : (file_to_hex_chunks bs).flatten
      = bs.take (196 * ((bs.length + 195) / 196))
        ++ List.replicate (196 * ((bs.length + 195) / 196)
            - min (196 * ((bs.length + 195) / 196)) bs.length) 0 := by
    simpa [file_to_hex_chunks] using
      chunk_slices_flatten ((bs.length + 195) / 196) bs
  rw [h, List.take_of_length_le (by omega : bs.length ≤ 196 * ((bs.length + 195) / 196))]
  exact List.take_left bs _

/-- C3: for every byte sequence, the chunker produces exactly
ceil(L/196) = (L+195)/196 chunks, every chunk is exactly 196 bytes long,
and concatenating the chunks in order and truncating to L bytes reproduces
the original sequence. -/
theorem c3_chunker (bs : List Nat) :
    (file_to_hex_chunks bs).length = (bs.length + 195) / 196
    ∧ (∀ c ∈ file_to_hex_chunks bs, c.length = 196)
    ∧ (file_to_hex_chunks bs).flatten.take bs.length = bs :=
  ⟨file_to_hex_chunks_length bs, file_to_hex_chunks_chunk_length bs,
   file_to_hex_chunks_flatten_take bs⟩

/-- C3 witness: the chunker on the 1-byte input `[7]` yields one 196-byte
chunk whose concatenation truncated to 1 byte is `[7]` again. -/
theorem c3_chunker_witness :
    (file_to_hex_chunks [7]).length = (1 + 195) / 196
    ∧ (7 :: List.replicate 195 0).length = 196
    ∧ (file_to_hex_chunks [7]).flatten.take 1 = [7] := by
  refine ⟨(c3_chunker [7]).1, ?_, (c3_chunker [7]).2.2⟩
  exact (c3_chunker [7]).2.1 _ (by decide)

/-- C5: a recognized-signature payload of exactly 255×196 = 49980 bytes
chunks successfully into 255 chunks with no PayloadTooLarge rejection,
while a payload of 49981 bytes fails with PayloadTooLarge; and for the
oversized payload the whole run produces no transport writes at all — the
rejection happens before any transport activity. -/
theorem c5_payload_size_bounds (bs bt : List Nat) (ack : Nat → Bool)
    (hsig : isGifSignature bs = true) (hlen : bs.length = 49980)
    (hsigt : isGifSignature bt = true) (hlent : bt.length = 49981) :
    file_to_hex_chunks_checked bs = Except.ok (file_to_hex_chunks bs)
    ∧ (file_to_hex_chunks bs).length = 255
    ∧ file_to_hex_chunks_checked bt = Except.error ChunkError.payloadTooLarge
    ∧ runUpload bt ack = ([], UploadOutcome.payloadTooLarge) := by
  have hc : (file_to_hex_chunks bs).length = 255 := by
    rw [file_to_hex_chunks_length, hlen]
  have hct : (file_to_hex_chunks bt).length = 256 := by
    rw [file_to_hex_chunks_length, hlent]
  have h1 : file_to_hex_chunks_checked bs = Except.ok (file_to_hex_chunks bs) := by
    simp [file_to_hex_chunks_checked, hsig, hc]
  have h2 : file_to_hex_chunks_checked bt = Except.error ChunkError.payloadTooLarge := by
    simp [file_to_hex_chunks_checked, hsigt, hct]
  exact ⟨h1, hc, h2, by simp [runUpload, h2]⟩

theorem gifPayloadMax_length : gifPayloadMax.length = 49980 := by
  show (gif89aSig ++ List.replicate 49974 0).length = 49980
  rw [List.length_append, List.length_replicate]
  rfl

theorem gifPayloadOver_length : gifPayloadOver.length = 49981 := by
  show (gif89aSig ++ List.replicate 49975 0).length = 49981
  rw [List.length_append, List.length_replicate]
  rfl

/-- C5 witness: the statement at a GIF89a payload padded to 49980 bytes and
one padded to 49981 bytes, with an always-acknowledging transport. -/
theorem c5_payload_size_bounds_witness :
    file_to_hex_chunks_checked gifPayloadMax = Except.ok (file_to_hex_chunks gifPayloadMax)
    ∧ (file_to_hex_chunks gifPayloadMax).length = 255
    ∧ file_to_hex_chunks_checked gifPayloadOver = Except.error ChunkError.payloadTooLarge
    ∧ runUpload gifPayloadOver (fun _ => true) = ([], UploadOutcome.payloadTooLarge) :=
  c5_payload_size_bounds gifPayloadMax gifPayloadOver (fun _ => true)
    rfl gifPayloadMax_length rfl gifPayloadOver_length

theorem sendLoop_timeout (N : Nat) (ack : Nat → Bool) :
    ∀ (cs : List (List Nat)) (k i0 : Nat), k < cs.length
      → (∀ j, j < k → ack (i0 + j) = true) → ack (i0 + k) = false
      → sendLoop N ack i0 cs
          = (packetsFrom N i0 (cs.take (k + 1)), SessionOutcome.ackTimeout) := by
  intro cs
  induction cs with
  | nil =>
    intro k i0 hk
    simp at hk
  | cons c cs ih =>
    intro k i0 hk hprev hfail
    match k with
    | 0 =>
      have h0 : ack i0 = false := by simpa using hfail
      simp [sendLoop, h0, packetsFrom]
    | k + 1 =>
      have hack : ack i0 = true := by simpa using hprev 0 (Nat.succ_pos k)
      have hk' : k < cs.length := by simpa using hk
      have hprev' : ∀ j, j < k → ack (i0 + 1 + j) = true := by
        intro j hj
        have h := hprev (j + 1) (by omega)
        rwa [show i0 + (j + 1) = i0 + 1 + j by omega] at h
      have hfail' : ack (i0 + 1 + k) = false := by
        rwa [show i0 + (k + 1) = i0 + 1 + k by omega] at hfail
      have hrec := ih k (i0 + 1) hk' hprev' hfail'
      simp [sendLoop, hack, hrec, packetsFrom, List.take_succ_cons]

/-- C8: if every packet before index i is acknowledged but no acknowledgment
arrives after packet i is written, the session ends in the AckTimeout failed
state having written exactly the two reset frames and the packets for chunk
indices 0 through i — packet i is written once (no retry), packet i+1 is
never written, and no finalize frame is sent: the whole session aborts. -/
theorem c8_ack_timeout (chunks : List (List Nat)) (ack : Nat → Bool) (i : Nat)
    (hi : i < chunks.length) (hprev : ∀ j, j < i → ack j = true)
    (hfail : ack i = false) :
    runSession chunks ack
      = (resetFrame1 :: resetFrame2
          :: packetsFrom chunks.length 0 (chunks.take (i + 1)),
         SessionOutcome.ackTimeout) := by
  have h := sendLoop_timeout chunks.length ack chunks i 0 hi
    (by intro j hj; simpa using hprev j hj) (by simpa using hfail)
  simp [runSession, h]

/-- C8 witness: a two-chunk session with a transport that never
acknowledges writes only the reset frames and packet 0, then fails. -/
theorem c8_ack_timeout_witness :
    runSession [zeroChunk, zeroChunk] (fun _ => false)
      = (resetFrame1 :: resetFrame2
          :: packetsFrom [zeroChunk, zeroChunk].length 0 ([zeroChunk, zeroChunk].take (0 + 1)),
         SessionOutcome.ackTimeout) :=
  c8_ack_timeout [zeroChunk, zeroChunk] (fun _ => false) 0 (by simp)
    (fun j hj => absurd hj (Nat.not_lt_zero j)) rfl

/-- C10: each of the three fixed control frames (the two reset frames and
the finalize frame) follows the same trailer scheme as data packets: the
frame is its leading bytes followed by the mod-256 checksum of those bytes
and then the `calculate_last_byte` of leading-bytes‖checksum — i.e. the
high byte of the integer sum of the leading bytes. -/
theorem c10_control_frame_trailers :
    resetFrame1 = resetFrame1.take 14
      ++ [checksum_mod256 (resetFrame1.take 14),
          calculate_last_byte (resetFrame1.take 14
            ++ [checksum_mod256 (resetFrame1.take 14)])]
    ∧ resetFrame2 = resetFrame2.take 14
      ++ [checksum_mod256 (resetFrame2.take 14),
          calculate_last_byte (resetFrame2.take 14
            ++ [checksum_mod256 (resetFrame2.take 14)])]
    ∧ finalizeFrame = finalizeFrame.take 15
      ++ [checksum_mod256 (finalizeFrame.take 15),
          calculate_last_byte (finalizeFrame.take 15
            ++ [checksum_mod256 (finalizeFrame.take 15)])] := by
  decide

/-- C9: for every full-length 196-byte chunk, every index up to 65535 and
every count up to 255, `generate_packet` returns a well-formed 243-byte
packet: a 45-byte header whose length-field byte (offset 4) equals 237
(0xED), followed by the 196 chunk bytes and a 2-byte trailer. -/
theorem c9_packet_shape (p : List Nat) (i N : Nat)
    (hp : p.length = 196) (hi : i ≤ 65535) (hN : N ≤ 255) :
    (generate_packet p i N).length = 243
    ∧ (generate_header p i N).length = 45
    ∧ (generate_packet p i N).take 45 = generate_header p i N
    ∧ ((generate_packet p i N).drop 45).take 196 = p
    ∧ (generate_header p i N)[4]? = some 237 := by
  have hassoc : generate_packet p i N
      = generate_header p i N
        ++ (p ++ ([checksum_mod256 (generate_header p i N ++ p)]
              ++ [calculate_last_byte (generate_header p i N ++ p
                    ++ [checksum_mod256 (generate_header p i N ++ p)])])) := by
    rw [generate_packet_eq, List.append_assoc, List.append_assoc]
  refine ⟨?_, generate_header_length p i N, ?_, ?_, ?_⟩
  · rw [generate_packet_length, hp]
  · rw [hassoc, List.take_left' (generate_header_length p i N)]
  · rw [hassoc, List.drop_left' (generate_header_length p i N), List.take_left' hp]
  · rw [generate_header_getElem4, hp]

/-- C9 witness: the statement at the all-zero chunk, index 0, count 1. -/
theorem c9_packet_shape_witness :
    (generate_packet zeroChunk 0 1).length = 243
    ∧ (generate_header zeroChunk 0 1).length = 45
    ∧ (generate_packet zeroChunk 0 1).take 45 = generate_header zeroChunk 0 1
    ∧ ((generate_packet zeroChunk 0 1).drop 45).take 196 = zeroChunk
    ∧ (generate_header zeroChunk 0 1)[4]? = some 237 :=
  c9_packet_shape zeroChunk 0 1 rfl (by norm_num) (by norm_num)
